import Mathlib

set_option maxHeartbeats 1000000

/-!
Shallow embedding of `easy2acl.py` (asayeed/easy2acl): a one-shot converter
that turns EasyChair exports (`meta`, `accepted`, `submissions`, PDFs) into an
ACL-Anthology proceedings layout.  Python strings are modelled by `String`
(lists of characters), machine effects (prints, file copies, file writes,
directory creation) by an explicit trace of `Action`s, and process termination
by an `Outcome` (normal completion, `sys.exit(1)`, or an uncaught exception).
Functions are transcribed from the source; the two external library calls
(`unicode_tex.unicode_to_tex` and `pybtex`'s `to_string`) are, respectively,
modelled from the spec and kept as an explicit parameter of the run.
-/

namespace Easy2Acl

/-- Whitespace characters recognised by Python's `str.split()` / `str.rstrip()`
(ASCII subset: space, tab, linefeed, return, vertical tab, form feed;
non-ASCII Unicode spaces are not modelled). -/
def isWs (c : Char) : Bool :=
  c = ' ' || c = '\t' || c = '\n' || c = '\r' || c = '\x0b' || c = '\x0c'

/-- Python `s.rstrip()`: remove trailing whitespace. -/
def pyRstrip (s : String) : String :=
  String.mk ((s.data.reverse.dropWhile isWs).reverse)

/-- Whether `pat` is a prefix of `s` (character-wise). -/
def listStartsWith : List Char → List Char → Bool
  | [], _ => true
  | _ :: _, [] => false
  | p :: ps, c :: cs => p = c && listStartsWith ps cs

/-- Python `s.split(sep)` for a nonempty separator, on character lists:
split at every non-overlapping, leftmost occurrence of `sep`, keeping empty
pieces.  `fuel` bounds the number of scanning steps (callers pass
`s.length + 1`, which suffices since each step consumes at least one
character when `sep` is nonempty). -/
def splitOnFuel (sep : List Char) : Nat → List Char → List Char → List (List Char)
  | 0, _, cur => [cur.reverse]
  | fuel + 1, s, cur =>
    match s with
    | [] => [cur.reverse]
    | c :: cs =>
      if listStartsWith sep s then
        cur.reverse :: splitOnFuel sep fuel (s.drop sep.length) []
      else splitOnFuel sep fuel cs (c :: cur)

/-- Python `s.split(sep)` for a nonempty separator string. -/
def pySplitOn (s sep : String) : List String :=
  (splitOnFuel sep.data (s.data.length + 1) s.data []).map String.mk

/-- Python `s.replace(pat, rep)` for a nonempty pattern, on character lists:
replace every non-overlapping, leftmost occurrence.  `fuel` as in
`splitOnFuel`. -/
def replaceFuel (pat rep : List Char) : Nat → List Char → List Char
  | 0, s => s
  | fuel + 1, s =>
    match s with
    | [] => []
    | c :: cs =>
      if listStartsWith pat s then rep ++ replaceFuel pat rep fuel (s.drop pat.length)
      else c :: replaceFuel pat rep fuel cs

/-- Python `s.replace(pat, rep)` for a nonempty pattern string. -/
def pyReplace (s pat rep : String) : String :=
  String.mk (replaceFuel pat.data rep.data (s.data.length + 1) s.data)

/-- Decimal digit-string to number (as Python's `int` on the all-digit
regex captures used for the format width). -/
def digitsToNat : List Char → Nat → Nat
  | [], acc => acc
  | c :: cs, acc => digitsToNat cs (acc * 10 + (c.toNat - 48))

/-- Python `s.split(maxsplit=1)`: skip leading whitespace, take the first
whitespace-free token, skip the following whitespace run, and return the
remainder as the second element when it is nonempty. -/
def pySplitMax1 (s : String) : List String :=
  let t := s.data.dropWhile isWs
  if t.isEmpty then []
  else
    let k := t.takeWhile (fun c => !(isWs c))
    let r := (t.dropWhile (fun c => !(isWs c))).dropWhile isWs
    if r.isEmpty then [String.mk k] else [String.mk k, String.mk r]

/-- Helper for `pySplitWs`: `cur` is the (reversed) token currently being read. -/
def splitWsAux (cur : List Char) : List Char → List String
  | [] => if cur.isEmpty then [] else [String.mk cur.reverse]
  | c :: cs =>
    if isWs c then
      if cur.isEmpty then splitWsAux [] cs
      else String.mk cur.reverse :: splitWsAux [] cs
    else splitWsAux (c :: cur) cs

/-- Python `s.split()` (no arguments): split on whitespace runs, dropping
empty tokens. -/
def pySplitWs (s : String) : List String :=
  splitWsAux [] s.data

/-- Modelled from the spec: the external symbol-table translation
`unicode_to_tex` of the `unicode_tex` package (not part of this repository)
maps each non-ASCII character of a token to a LaTeX escape code and leaves
ASCII characters unchanged.  Per-character translation of one character. -/
def u2tChar (c : Char) : List Char :=
  if c.toNat < 128 then [c] else ("\\unicodechar" ++ toString c.toNat).data

/-- Modelled from the spec: the external `unicode_to_tex` applied to a whole
token (character-by-character translation, see `u2tChar`). -/
def unicode_to_tex (s : String) : String :=
  String.mk (s.data.map u2tChar).flatten

/-- Transcription of `texify` (easy2acl.py line 23):
`' '.join(map(unicode_to_tex, string.split()))`. -/
def texify (string : String) : String :=
  String.intercalate " " ((pySplitWs string).map unicode_to_tex)

/-- Output stream of a `print` call. -/
inductive Channel
  | stdout
  | stderr
deriving DecidableEq, Repr

/-- Observable filesystem/console effects of the script. -/
inductive Action
  | message (ch : Channel) (text : String)
  | copyFile (src dst : String)
  | writeFile (path : String) (content : String)
  | makeDir (path : String)
deriving DecidableEq, Repr

/-- How the process ends: normal completion (exit status 0), `sys.exit(1)`
after a fatal diagnostic, or an uncaught Python exception (exit status 1,
traceback on stderr, no `Fatal:` diagnostic). -/
inductive Outcome
  | completed
  | fatalExit
  | uncaught
deriving DecidableEq, Repr

/-- Exit status of the process for each possible outcome. -/
def exitCode : Outcome → Nat
  | .completed => 0
  | .fatalExit => 1
  | .uncaught => 1

/-- Result of a run: the effect trace and how the process ended. -/
structure RunResult where
  actions : List Action
  outcome : Outcome
deriving DecidableEq, Repr

/-- Line 45: `print('Fatal: missing key "{}" from "meta" file'.format(key))` —
note: standard output (no `file=sys.stderr`). -/
def missingKeyMsg (k : String) : Action :=
  .message .stdout ("Fatal: missing key \"" ++ k ++ "\" from \"meta\" file")

/-- Line 50: `print("Fatal: bib_url field ({}) ...", file=sys.stderr)`. -/
def badBibUrlMsg (u : String) : Action :=
  .message .stderr ("Fatal: bib_url field (" ++ u ++ ") in \x27meta\x27 file has wrong pattern")

/-- Line 69: `print("Found ", len(accepted), " accepted files")` (stdout). -/
def foundAcceptedMsg (n : Nat) : Action :=
  .message .stdout ("Found  " ++ toString n ++ "  accepted files")

/-- Line 84: `print("Found ", len(submissions), " submitted files")` (stdout). -/
def foundSubmittedMsg (n : Nat) : Action :=
  .message .stdout ("Found  " ++ toString n ++ "  submitted files")

/-- Line 93: `print('Found ', len(abstracts), 'abstracts')` (stdout). -/
def foundAbstractsMsg (n : Nat) : Action :=
  .message .stdout ("Found  " ++ toString n ++ " abstracts")

/-- Line 103: `print("Fatal: could not find full volume PDF '{}'", ...)` —
standard output (no `file=sys.stderr`). -/
def missingFullPdfMsg (p : String) : Action :=
  .message .stdout ("Fatal: could not find full volume PDF \x27" ++ p ++ "\x27")

/-- Line 110: `print("Fatal: could not find frontmatter PDF file '{}'", ...)` —
standard output (no `file=sys.stderr`). -/
def missingFrontmatterPdfMsg (p : String) : Action :=
  .message .stdout ("Fatal: could not find frontmatter PDF file \x27" ++ p ++ "\x27")

/-- Line 139: `print('COPYING meta -> proceedings/meta', file=sys.stderr)`. -/
def copyMetaMsg : Action :=
  .message .stderr "COPYING meta -> proceedings/meta"

/-- Line 148: `print('Fatal: no PDF found for paper', paper_id, file=sys.stderr)`
— note that it reports the positional `paper_id`, not the submission id. -/
def missingPaperPdfMsg (pid : Nat) : Action :=
  .message .stderr ("Fatal: no PDF found for paper " ++ toString pid)

/-- Lines 157 and 202: `print('COPYING', src, '->', dst, file=sys.stderr)`. -/
def copyingMsg (src dst : String) : Action :=
  .message .stderr ("COPYING " ++ src ++ " -> " ++ dst)

/-- Line 186: `print('Fatal: Error in BibTeX-encoding paper', submission_id,
file=sys.stderr)`. -/
def bibEncodeMsg (sid : String) : Action :=
  .message .stderr ("Fatal: Error in BibTeX-encoding paper " ++ sid)

/-- Lines 191 and 198: `print('CREATED', path)` (stdout). -/
def createdMsg (p : String) : Action :=
  .message .stdout ("CREATED " ++ p)

/-- Match a literal pattern where `'.'` matches any character (the unescaped
dots of the Python regex); returns the remaining input on success. -/
def matchWild : List Char → List Char → Option (List Char)
  | [], s => some s
  | _ :: _, [] => none
  | p :: ps, c :: cs => if p = '.' ∨ p = c then matchWild ps cs else none

/-- Transcription of line 48:
`re.match(r'https://www.aclweb.org/anthology/([A-Z])(\d\d)-(\d+)%0(\d+)d', url)`.
`re.match` anchors at the start only (trailing text is allowed); the greedy
`(\d+)` groups are each followed by a non-digit literal, so they capture the
maximal digit run.  Python's `\d` also accepts non-ASCII Unicode digits; only
ASCII digits are modelled here. -/
def bibUrlMatch (u : String) : Option (String × String × String × String) :=
  match matchWild "https://www.aclweb.org/anthology/".data u.data with
  | none => none
  | some r1 =>
    match r1 with
    | [] => none
    | c :: r2 =>
      if 'A' ≤ c ∧ c ≤ 'Z' then
        match r2 with
        | d1 :: d2 :: ('-' :: r4) =>
          if d1.isDigit ∧ d2.isDigit then
            let vol := r4.takeWhile Char.isDigit
            let r5 := r4.dropWhile Char.isDigit
            if vol.isEmpty then none
            else
              match r5 with
              | '%' :: '0' :: r6 =>
                let w := r6.takeWhile Char.isDigit
                let r7 := r6.dropWhile Char.isDigit
                if w.isEmpty then none
                else
                  match r7 with
                  | 'd' :: _ => some (String.mk [c], String.mk [d1, d2], String.mk vol, String.mk w)
                  | _ => none
              | _ => none
          else none
        | _ => none
      else none

/-- A row of the `submissions` file: `(id, title, authors)` (line 83). -/
abbrev Submission := String × String × List String

/-- Transcription of line 80: `entry[1].replace(' and', ',').split(', ')`.
All occurrences of the four-character substring `" and"` (no trailing space)
are replaced by a comma, then the string is split on `", "`. -/
def splitAuthors (field : String) : List String :=
  pySplitOn (pyReplace field " and" ",") ", "

/-- Transcription of lines 59-68: read the `accepted` file, keep rows whose
last tab-separated field is `ACCEPT` as `(entry[0], entry[1])`.  A retained
row with fewer than two fields raises an uncaught `IndexError` (`entry[1]`). -/
def loadAccepted : List String → Except Unit (List (String × String))
  | [] => .ok []
  | l :: ls =>
    let entry := pySplitOn (pyRstrip l) "\t"
    if entry.getLastD "" = "ACCEPT" then
      match entry with
      | e0 :: e1 :: _ => Except.map (fun r => (e0, e1) :: r) (loadAccepted ls)
      | _ => .error ()
    else loadAccepted ls

/-- Transcription of lines 76-83: read the `submissions` file as
`(entry[0], entry[2], splitAuthors entry[1])`.  A row with fewer than three
tab-separated fields raises an uncaught `IndexError`. -/
def loadSubmissions : List String → Except Unit (List Submission)
  | [] => .ok []
  | l :: ls =>
    let entry := pySplitOn (pyRstrip l) "\t"
    match entry with
    | e0 :: e1 :: e2 :: _ =>
      Except.map (fun r => (e0, e2, splitAuthors e1) :: r) (loadSubmissions ls)
    | _ => .error ()

/-- A Python dict with string keys and values, as a lookup function. -/
def dictInsert (d : String → Option String) (k v : String) : String → Option String :=
  fun x => if x = k then some v else d x

/-- The in-memory metadata of lines 34-41: the `chairs` list (seeded empty)
and the remaining key/value entries. -/
structure Meta where
  chairs : List String
  tbl : String → Option String

/-- Transcription of line 34: `metadata = { 'chairs': [] }`. -/
def initMeta : Meta := { chairs := [], tbl := fun _ => none }

/-- Transcription of lines 35-41: `key, value = line.rstrip().split(maxsplit=1)`;
`chairs` lines accumulate, every other key overwrites.  A line producing fewer
than two tokens raises an uncaught `ValueError` on unpacking. -/
def loadMetaLines : List String → Meta → Except Unit Meta
  | [], m => .ok m
  | l :: ls, m =>
    match pySplitMax1 (pyRstrip l) with
    | [k, v] =>
      if k = "chairs" then loadMetaLines ls { m with chairs := m.chairs ++ [v] }
      else loadMetaLines ls { m with tbl := dictInsert m.tbl k v }
    | _ => .error ()

/-- Line 43: the required metadata keys, in checking order. -/
def requiredKeys : List String :=
  ["abbrev", "title", "booktitle", "month", "year", "location", "publisher", "chairs", "bib_url"]

/-- Python `key in metadata`: the dict always holds `chairs` (seeded at
line 34), other keys only once assigned. -/
def metaHasKey (m : Meta) (k : String) : Bool :=
  k = "chairs" || (m.tbl k).isSome

/-- Lines 43-46 abort at the first required key missing from the dict. -/
def firstMissing (m : Meta) : Option String :=
  requiredKeys.find? (fun k => !(metaHasKey m k))

/-- Metadata lookup after the required-key check (every required key is then
present, so the default is never used for them). -/
def getMeta (m : Meta) (k : String) : String :=
  (m.tbl k).getD ""

/-- Transcription of line 116:
`pdf_file.split('_')[-1].replace('.pdf', '')`. -/
def extractId (pdfFile : String) : String :=
  pyReplace ((pySplitOn pdfFile "_").getLastD "") ".pdf" ""

/-- Transcription of lines 114-117: the PDF registry, seeded with the
frontmatter PDF under key `"0"`, then one insertion per globbed per-paper PDF
(later insertions overwrite earlier ones, as for a Python dict). -/
def buildPdfs (front : String) (globbed : List String) : String → Option String :=
  globbed.foldl (fun d g => dictInsert d (extractId g) g) (dictInsert (fun _ => none) "0" front)

/-- Transcription of lines 87-92: the abstract dict built from the rows of
`submission.csv` (`abstracts[row['#']] = row['abstract']`); the CSV parsing
itself is external (`csv.DictReader`), so the rows are an input of the model. -/
def buildAbstracts (rows : List (String × String)) : String → Option String :=
  rows.foldl (fun d r => dictInsert d r.1 r.2) (fun _ => none)

/-- Transcription of the inner loop of lines 123-126: scan the submissions in
file order, return the first whose id and title both equal the accepted
decision's, stopping there (`break`). -/
def innerFind (a : String × String) : List Submission → Option Submission
  | [] => none
  | s :: rest => if s.1 = a.1 ∧ s.2.1 = a.2 then some s else innerFind a rest

/-- Transcription of the outer loop of lines 122-126: for each accepted
decision in file order, append its first matching submission (if any). -/
def joinAccepted : List (String × String) → List Submission → List Submission
  | [], _ => []
  | a :: rest, subs =>
    match innerFind a subs with
    | some s => s :: joinAccepted rest subs
    | none => joinAccepted rest subs

/-- Transcription of lines 120-126: the final-paper list, seeded with the
frontmatter pseudo-paper, then the joined accepted papers. -/
def finalPapers (fm : Submission) (acc : List (String × String)) (subs : List Submission) :
    List Submission :=
  fm :: joinAccepted acc subs

/-- Python `os.path.basename` for the paths used here: the part after the
last `/`. -/
def pyBasename (s : String) : String :=
  (pySplitOn s "/").getLastD ""

/-- Trailing-slash strip used by `os.path.dirname`. -/
def dropTrailingSlashes (l : List Char) : List Char :=
  (l.reverse.dropWhile (fun c => c = '/')).reverse

/-- Python `os.path.dirname`: everything up to the last `/`, with trailing
slashes stripped unless the head is all slashes. -/
def pyDirname (s : String) : String :=
  let parts := pySplitOn s "/"
  match parts with
  | [] => ""
  | [_] => ""
  | _ =>
    let head := String.intercalate "/" parts.dropLast ++ "/"
    if head.data.all (fun c => c = '/') then head
    else String.mk (dropTrailingSlashes head.data)

/-- The width string captured from the bib_url is used as a numeric format
width (`'{paper_id:0{width}d}'`); it is a nonempty digit string, parsed here
to a `Nat`. -/
def pyStrToNat (s : String) : Nat :=
  digitsToNat s.data 0

/-- Python `'{n:0{w}d}'` for a nonnegative `n`: decimal digits of `n`,
left-padded with zeros to width `w` (never truncated). -/
def zeroPad (n w : Nat) : String :=
  let s := toString n
  String.mk (List.replicate (w - s.length) '0') ++ s

/-- A pybtex `Entry` as built at lines 166-181: its type
(`inproceedings`/`proceedings`) and its fields in insertion order. -/
structure BibEntry where
  kind : String
  fields : List (String × String)
deriving DecidableEq, Repr

/-- Context of the emit loop (lines 142-191): the parsed bib_url pieces, the
metadata fields the loop reads, the abstract dict, and the
filesystem-existence oracle.  The external pybtex serializer
(`BibliographyData({anthology_id: entry}).to_string('bibtex')`, which the
code wraps in a `try/except TypeError` — hence `Except`) is passed
separately. -/
structure Ctx where
  letter : String
  year2 : String
  vol : String
  width : Nat
  year : String
  month : String
  location : String
  publisher : String
  booktitle : String
  abstracts : String → Option String
  fsExists : String → Bool

/-- Result of the emit loop: the effect trace, the accumulated `final_bibs`
strings, the formatted identifiers assigned (in order), and whether the loop
hit a fatal condition (`sys.exit(1)`). -/
structure EmitRes where
  acts : List Action
  bibs : List String
  fids : List String
  halted : Bool
deriving Repr

/-- Line 153: the destination path of the paper at counter `pid`:
`proceedings/cdrom/pdf/<letter><year2>-<vol><formatted id>.pdf`. -/
def destOf (ctx : Ctx) (pid : Nat) : String :=
  "proceedings/cdrom/pdf/" ++ ctx.letter ++ ctx.year2 ++ "-" ++ ctx.vol ++ zeroPad pid ctx.width ++ ".pdf"

/-- Line 159: `bib_path = dest_path.replace('pdf', 'bib')` (all occurrences). -/
def bibPathOf (ctx : Ctx) (pid : Nat) : String :=
  pyReplace (destOf ctx pid) "pdf" "bib"

/-- Line 163: `anthology_id = os.path.basename(dest_path).replace('.pdf', '')`. -/
def aidOf (ctx : Ctx) (pid : Nat) : String :=
  pyReplace (pyBasename (destOf ctx pid)) ".pdf" ""

/-- Lines 146 and 165-181: the pybtex entry built for one paper — type
`inproceedings` unless the submission id is the frontmatter's `"0"`; fields
author (authors joined with `' and '`, then `texify`-escaped), title, year,
month, address, publisher, then the abstract when the id is in the abstract
dict, then booktitle for `inproceedings` entries only. -/
def entryOf (ctx : Ctx) (sid ptitle : String) (auths : List String) : BibEntry :=
  let authors := String.intercalate " and " auths
  let bibType := if sid ≠ "0" then "inproceedings" else "proceedings"
  let fields0 : List (String × String) :=
    [("author", texify authors), ("title", ptitle), ("year", ctx.year),
     ("month", ctx.month), ("address", ctx.location), ("publisher", ctx.publisher)]
  let fields1 :=
    match ctx.abstracts sid with
    | some ab => fields0 ++ [("abstract", ab)]
    | none => fields0
  { kind := bibType,
    fields := if bibType = "inproceedings" then fields1 ++ [("booktitle", ctx.booktitle)] else fields1 }

/-- Lines 160-161: whether `os.path.dirname(bib_path)` must be created. -/
def mkDirNeeded (ctx : Ctx) (pid : Nat) (created : List String) : Bool :=
  !(ctx.fsExists (pyDirname (bibPathOf ctx pid)) || created.contains (pyDirname (bibPathOf ctx pid)))

/-- Lines 156-161: the copy of the paper's PDF (with its stderr progress
line) followed by the conditional directory creation. -/
def ppActs (ctx : Ctx) (pid : Nat) (created : List String) (pdfPath : String) : List Action :=
  [.copyFile pdfPath (destOf ctx pid), copyingMsg pdfPath (destOf ctx pid)] ++
    (if mkDirNeeded ctx pid created then [.makeDir (pyDirname (bibPathOf ctx pid))] else [])

/-- Lines 160-161: the directory set after the conditional `os.makedirs`. -/
def ppCreated (ctx : Ctx) (pid : Nat) (created : List String) : List String :=
  if mkDirNeeded ctx pid created then created ++ [pyDirname (bibPathOf ctx pid)] else created

/-- Transcription of one iteration of the per-paper loop (lines 144-191).
`pid` is the running `paper_id` counter, `created` the directories created so
far by `os.makedirs` (so that later `os.path.exists` checks see them).
`error` carries the actions of a fatal iteration (`sys.exit(1)`); `ok`
carries the iteration's actions, the bib record string, the formatted
identifier and the updated directory set. -/
def processPaper (ctx : Ctx) (toStr : String → BibEntry → Except Unit String)
    (pdfs : String → Option String) :
    Submission → Nat → List String →
      Except (List Action) (List Action × String × String × List String)
  | (sid, ptitle, auths), pid, created =>
    match pdfs sid with
    | none => .error [missingPaperPdfMsg pid]
    | some pdfPath =>
      match toStr (aidOf ctx pid) (entryOf ctx sid ptitle auths) with
      | .error _ => .error (ppActs ctx pid created pdfPath ++ [bibEncodeMsg sid])
      | .ok bibString =>
        .ok (ppActs ctx pid created pdfPath ++
              [.writeFile (bibPathOf ctx pid) (bibString ++ "\n"), createdMsg (bibPathOf ctx pid)],
             bibString, zeroPad pid ctx.width, ppCreated ctx pid created)

/-- Transcription of the per-paper loop of lines 142-191: iterate
`processPaper` with the incrementing `paper_id`, stopping at the first fatal
iteration. -/
def emitPapers (ctx : Ctx) (toStr : String → BibEntry → Except Unit String)
    (pdfs : String → Option String) :
    List Submission → Nat → List String → EmitRes
  | [], _, _ => { acts := [], bibs := [], fids := [], halted := false }
  | p :: rest, pid, created =>
    match processPaper ctx toStr pdfs p pid created with
    | .error a => { acts := a, bibs := [], fids := [], halted := true }
    | .ok (a, bibString, fid, created2) =>
      let r := emitPapers ctx toStr pdfs rest (pid + 1) created2
      { acts := a ++ r.acts, bibs := bibString :: r.bibs,
        fids := fid :: r.fids, halted := r.halted }

/-- The inputs of one run: the lines of the three record files, the parsed
rows of the optional `submission.csv` (`none` when the file does not exist),
the filesystem-existence oracle, the glob result for
`pdf/<abbrev>_<year>_paper_*.pdf`, and the external pybtex serializer. -/
structure Inputs where
  metaLines : List String
  acceptedLines : List String
  submissionsLines : List String
  csvRows : Option (List (String × String))
  fsExists : String → Bool
  globPaperPdfs : List String
  toStr : String → BibEntry → Except Unit String

/-- Transcription of lines 43-203: everything after the metadata dict has
been built. -/
def runWithMeta (inp : Inputs) (m : Meta) : RunResult :=
  match firstMissing m with
  | some k => { actions := [missingKeyMsg k], outcome := .fatalExit }
  | none =>
    let u := getMeta m "bib_url"
    match bibUrlMatch u with
    | none => { actions := [badBibUrlMsg u], outcome := .fatalExit }
    | some (letter, year2, vol, wstr) =>
      match loadAccepted inp.acceptedLines with
      | .error _ => { actions := [], outcome := .uncaught }
      | .ok accepted =>
        let acts1 := [foundAcceptedMsg accepted.length]
        match loadSubmissions inp.submissionsLines with
        | .error _ => { actions := acts1, outcome := .uncaught }
        | .ok submissions =>
          let acts2 := acts1 ++ [foundSubmittedMsg submissions.length]
          let abstracts :=
            match inp.csvRows with
            | none => fun (_ : String) => (none : Option String)
            | some rows => buildAbstracts rows
          let acts3 :=
            match inp.csvRows with
            | none => acts2
            | some rows => acts2 ++ [foundAbstractsMsg ((rows.map Prod.fst).eraseDups).length]
          let abbr := getMeta m "abbrev"
          let year := getMeta m "year"
          let fullPdfFile := "pdf/" ++ abbr ++ "_" ++ year ++ ".pdf"
          if !(inp.fsExists fullPdfFile) then
            { actions := acts3 ++ [missingFullPdfMsg fullPdfFile], outcome := .fatalExit }
          else
            let frontmatterPdfFile := "pdf/" ++ abbr ++ "_" ++ year ++ "_frontmatter.pdf"
            if !(inp.fsExists frontmatterPdfFile) then
              { actions := acts3 ++ [missingFrontmatterPdfMsg frontmatterPdfFile], outcome := .fatalExit }
            else
              let pdfs := buildPdfs frontmatterPdfFile inp.globPaperPdfs
              let final_papers := finalPapers ("0", getMeta m "booktitle", m.chairs) accepted submissions
              let d1 := "proceedings/cdrom/bib"
              let d2 := "proceedings/cdrom/pdf"
              let dirActs1 : List Action := if inp.fsExists d1 then [] else [.makeDir d1]
              let created1 : List String := if inp.fsExists d1 then [] else [d1]
              let dirActs2 : List Action := if inp.fsExists d2 then [] else [.makeDir d2]
              let created2 := if inp.fsExists d2 then created1 else created1 ++ [d2]
              let acts4 := acts3 ++ dirActs1 ++ dirActs2 ++ [copyMetaMsg, .copyFile "meta" "proceedings/meta"]
              let ctx : Ctx :=
                { letter := letter, year2 := year2, vol := vol, width := pyStrToNat wstr,
                  year := year, month := getMeta m "month", location := getMeta m "location",
                  publisher := getMeta m "publisher", booktitle := getMeta m "booktitle",
                  abstracts := abstracts, fsExists := inp.fsExists }
              let r := emitPapers ctx inp.toStr pdfs final_papers 0 created2
              if r.halted then { actions := acts4 ++ r.acts, outcome := .fatalExit }
              else
                let destBib := "proceedings/cdrom/" ++ abbr ++ "-" ++ year ++ ".bib"
                let destPdf := pyReplace destBib "bib" "pdf"
                { actions := acts4 ++ r.acts ++
                    [.writeFile destBib (String.intercalate "\n" r.bibs ++ "\n"), createdMsg destBib,
                     copyingMsg fullPdfFile destPdf, .copyFile fullPdfFile destPdf],
                  outcome := .completed }

/-- Transcription of the whole script, lines 34-203. -/
def runScript (inp : Inputs) : RunResult :=
  match loadMetaLines inp.metaLines initMeta with
  | .error _ => { actions := [], outcome := .uncaught }
  | .ok m => runWithMeta inp m

/-- Concrete fixture: an emit-loop context as built by a run whose `meta` file
maps abbrev to `X`, year to `2019`, and whose bib_url parses to
(`W`, `19`, `0`, width 2), with a serializer that always succeeds. -/
def wCtx : Ctx :=
  { letter := "W", year2 := "19", vol := "0", width := 2, year := "2019", month := "June",
    location := "L", publisher := "P", booktitle := "BT",
    abstracts := fun _ => none, fsExists := fun _ => false }

/-- Concrete fixture: a PDF registry holding the frontmatter and paper 1. -/
def wPdfs : String → Option String := fun sid =>
  if sid = "0" then some "pdf/X_2019_frontmatter.pdf"
  else if sid = "1" then some "pdf/X_2019_paper_1.pdf" else none

/-- Concrete fixture: a PDF registry holding only the frontmatter. -/
def wPdfsNoPaper : String → Option String := fun sid =>
  if sid = "0" then some "pdf/X_2019_frontmatter.pdf" else none

/-- Concrete fixture: the synthesized frontmatter pseudo-paper. -/
def wFm : Submission := ("0", "BT", ["C One"])

/-- Concrete fixture: one accepted decision. -/
def wAcc : List (String × String) := [("1", "T1")]

/-- Concrete fixture: one submission record. -/
def wSubs : List Submission := [("1", "T1", ["A One", "B Two"])]

/-- Concrete fixture: the lines of a complete, well-formed `meta` file. -/
def goodMetaLines : List String :=
  ["abbrev X", "title T", "booktitle BT", "month June", "year 2019",
   "location L", "publisher P", "chairs C One",
   "bib_url https://www.aclweb.org/anthology/W19-0%02d"]

/-- Concrete fixture: a pybtex serializer that always succeeds. -/
def okToStr : String → BibEntry → Except Unit String := fun aid _ => .ok ("BIB " ++ aid)

/-- Concrete fixture: a filesystem holding exactly the full-volume and
frontmatter PDFs. -/
def c7fs : String → Bool := fun p => p = "pdf/X_2019.pdf" || p = "pdf/X_2019_frontmatter.pdf"

/-- Concrete fixture for the end-to-end scenario: one accepted submission
whose (id, title) matches, its per-paper PDF globbed, the required volume and
frontmatter PDFs present, no `submission.csv`, serializer a parameter. -/
def c7inputs (toStr : String → BibEntry → Except Unit String) : Inputs :=
  { metaLines := goodMetaLines,
    acceptedLines := ["1\tT1\tACCEPT"],
    submissionsLines := ["1\tA One and B Two\tT1"],
    csvRows := none,
    fsExists := c7fs,
    globPaperPdfs := ["pdf/X_2019_paper_1.pdf"],
    toStr := toStr }

/-- The bib entry the end-to-end scenario builds for the frontmatter. -/
def fmEntryC7 : BibEntry :=
  { kind := "proceedings",
    fields := [("author", "C One"), ("title", "BT"), ("year", "2019"),
               ("month", "June"), ("address", "L"), ("publisher", "P")] }

/-- The bib entry the end-to-end scenario builds for the accepted paper. -/
def paperEntryC7 : BibEntry :=
  { kind := "inproceedings",
    fields := [("author", "A One and B Two"), ("title", "T1"), ("year", "2019"),
               ("month", "June"), ("address", "L"), ("publisher", "P"), ("booktitle", "BT")] }

/-- Concrete fixture: a metadata table with every required key present and a
bib_url value (`xyz`) that does not match the URL pattern. -/
def wMetaBadUrl : Meta :=
  { chairs := ["C One"],
    tbl := fun k =>
      if k = "abbrev" then some "X" else if k = "title" then some "T"
      else if k = "booktitle" then some "BT" else if k = "month" then some "June"
      else if k = "year" then some "2019" else if k = "location" then some "L"
      else if k = "publisher" then some "P" else if k = "bib_url" then some "xyz" else none }

/-- Concrete fixture: the same metadata table with the spec's example URL
`https://host/anthology/W19-0%02d` as bib_url value. -/
def wMetaHostUrl : Meta :=
  { wMetaBadUrl with tbl := dictInsert wMetaBadUrl.tbl "bib_url" "https://host/anthology/W19-0%02d" }

/-- The channel of a `message` action. -/
def msgChannel : Action → Option Channel
  | .message ch _ => some ch
  | _ => none

/-- Scenario: `meta` file empty, so the first required key is missing. -/
def c6MissingKeyInputs : Inputs := { c7inputs okToStr with metaLines := [] }

/-- Scenario: all required keys present but bib_url malformed. -/
def c6BadUrlInputs : Inputs :=
  { c7inputs okToStr with metaLines :=
      ["abbrev X", "title T", "booktitle BT", "month June", "year 2019",
       "location L", "publisher P", "chairs C One", "bib_url xyz"] }

/-- Scenario: the full-volume PDF does not exist. -/
def c6NoFullPdfInputs : Inputs := { c7inputs okToStr with fsExists := fun _ => false }

/-- Scenario: the frontmatter PDF does not exist. -/
def c6NoFrontPdfInputs : Inputs :=
  { c7inputs okToStr with fsExists := fun p => p = "pdf/X_2019.pdf" }

/-- Scenario: the matched paper's PDF was not globbed. -/
def c6NoPaperPdfInputs : Inputs := { c7inputs okToStr with globPaperPdfs := [] }

/-- Scenario: the pybtex serializer raises `TypeError` on every record. -/
def c6EncodeFailInputs : Inputs := c7inputs (fun _ _ => .error ())

/-- The PDF registry the end-to-end scenario builds. -/
def c7pdfs : String → Option String :=
  buildPdfs "pdf/X_2019_frontmatter.pdf" ["pdf/X_2019_paper_1.pdf"]

/-- The directories created before the emit loop of the scenario. -/
def c7created : List String := ["proceedings/cdrom/bib", "proceedings/cdrom/pdf"]

/-- The emit-loop context the scenario builds from its `meta` file. -/
def c7ctx : Ctx :=
  { letter := "W", year2 := "19", vol := "0", width := 2, year := "2019", month := "June",
    location := "L", publisher := "P", booktitle := "BT",
    abstracts := fun _ => none, fsExists := c7fs }

/-- The scenario's actions before the emit loop. -/
def c7prefix : List Action :=
  [foundAcceptedMsg 1, foundSubmittedMsg 1,
   .makeDir "proceedings/cdrom/bib", .makeDir "proceedings/cdrom/pdf",
   copyMetaMsg, .copyFile "meta" "proceedings/meta"]

/-- The scenario's actions after the emit loop: the volume bibliography (the
record strings joined by newlines) and the volume PDF copy. -/
def c7suffixActs (bibs : List String) : List Action :=
  [.writeFile "proceedings/cdrom/X-2019.bib" (String.intercalate "\n" bibs ++ "\n"),
   createdMsg "proceedings/cdrom/X-2019.bib",
   copyingMsg "pdf/X_2019.pdf" "proceedings/cdrom/X-2019.pdf",
   .copyFile "pdf/X_2019.pdf" "proceedings/cdrom/X-2019.pdf"]

/-- The scenario's emit-loop actions for the frontmatter, given its record
string. -/
def fmStepActs (b : String) : List Action :=
  [.copyFile "pdf/X_2019_frontmatter.pdf" "proceedings/cdrom/pdf/W19-000.pdf",
   copyingMsg "pdf/X_2019_frontmatter.pdf" "proceedings/cdrom/pdf/W19-000.pdf",
   .writeFile "proceedings/cdrom/bib/W19-000.bib" (b ++ "\n"),
   createdMsg "proceedings/cdrom/bib/W19-000.bib"]

/-- The scenario's emit-loop actions for the accepted paper, given its record
string. -/
def paperStepActs (b : String) : List Action :=
  [.copyFile "pdf/X_2019_paper_1.pdf" "proceedings/cdrom/pdf/W19-001.pdf",
   copyingMsg "pdf/X_2019_paper_1.pdf" "proceedings/cdrom/pdf/W19-001.pdf",
   .writeFile "proceedings/cdrom/bib/W19-001.bib" (b ++ "\n"),
   createdMsg "proceedings/cdrom/bib/W19-001.bib"]

/-- Whether an action copies a file into `proceedings/cdrom/pdf/` (a renamed
per-paper PDF output). -/
def isCdromPdfCopy : Action → Bool
  | .copyFile _ dst => listStartsWith "proceedings/cdrom/pdf/".data dst.data
  | _ => false

/-- Whether an action writes a file under `proceedings/cdrom/bib/` (a
per-paper bibliography file). -/
def isCdromBibWrite : Action → Bool
  | .writeFile p _ => listStartsWith "proceedings/cdrom/bib/".data p.data
  | _ => false

/-- Whether an action writes the given path. -/
def isWriteTo (path : String) : Action → Bool
  | .writeFile p _ => p = path
  | _ => false

/-- Scenario: a `meta` file whose single line has only one token. -/
def c10Inputs : Inputs := { c7inputs okToStr with metaLines := ["justakey"] }

theorem innerFind_eq_find? (a : String × String) :
    ∀ subs : List Submission,
      innerFind a subs = subs.find? (fun s => s.1 == a.1 && s.2.1 == a.2)
  | [] => rfl
  | s :: rest => by
    rw [innerFind, innerFind_eq_find? a rest, List.find?]
    by_cases h : s.1 = a.1 ∧ s.2.1 = a.2
    · have hb : (s.1 == a.1 && s.2.1 == a.2) = true := by simp [h.1, h.2]
      rw [if_pos h, hb]
    · have hb : (s.1 == a.1 && s.2.1 == a.2) = false := by
        rcases not_and_or.mp h with h1 | h1 <;> simp [h1]
      rw [if_neg h, hb]

theorem joinAccepted_eq_filterMap :
    ∀ (acc : List (String × String)) (subs : List Submission),
      joinAccepted acc subs =
        acc.filterMap (fun a => subs.find? (fun s => s.1 == a.1 && s.2.1 == a.2))
  | [], _ => rfl
  | a :: rest, subs => by
    rw [joinAccepted, List.filterMap_cons, ← innerFind_eq_find?,
      joinAccepted_eq_filterMap rest subs]
    cases innerFind a subs <;> simp

/-- C1: For every accepted decision, the joiner appends the first submission
(in submissions-file order) whose id and title both equal the decision's
(`List.find?` captures "first match wins"); an accepted decision with no match
contributes nothing to the final-paper list, and the join itself is a total
pure function that emits no diagnostic.  In particular, for submissions
`[("1","T",["A","B"])]` and accepted `[("1","T")]` the final-paper list after
the frontmatter entry is exactly `[("1","T",["A","B"])]`, whose author list is
`["A","B"]`. -/
theorem join_first_match :
    (∀ (acc : List (String × String)) (subs : List Submission),
        joinAccepted acc subs =
          acc.filterMap (fun a => subs.find? (fun s => s.1 == a.1 && s.2.1 == a.2)))
    ∧ (∀ (a : String × String) (acc : List (String × String)) (subs : List Submission),
        innerFind a subs = none → joinAccepted (a :: acc) subs = joinAccepted acc subs)
    ∧ (∀ fm : Submission,
        finalPapers fm [("1", "T")] [("1", "T", ["A", "B"])] = [fm, ("1", "T", ["A", "B"])]) :=
  ⟨joinAccepted_eq_filterMap,
   fun a acc subs h => by rw [joinAccepted, h],
   fun fm => congrArg (List.cons fm) (by decide)⟩

/-- Witness for C1: the conditional part applied at a concrete no-match input
(accepted id `"2"` against the single submission `("1","T",["A","B"])`). -/
theorem join_first_match_witness :
    joinAccepted [("2", "T")] [("1", "T", ["A", "B"])] = joinAccepted [] [("1", "T", ["A", "B"])] :=
  join_first_match.2.1 ("2", "T") [] [("1", "T", ["A", "B"])] (by decide)

theorem processPaper_missing (ctx : Ctx) (toStr : String → BibEntry → Except Unit String)
    (pdfs : String → Option String)
    (sub : Submission) (pid : Nat) (created : List String)
    (hp : pdfs sub.1 = none) :
    processPaper ctx toStr pdfs sub pid created = .error [missingPaperPdfMsg pid] := by
  obtain ⟨sid, ptitle, auths⟩ := sub
  have hp' : pdfs sid = none := hp
  simp only [processPaper]
  rw [hp']

theorem processPaper_ok (ctx : Ctx) (toStr : String → BibEntry → Except Unit String)
    (pdfs : String → Option String)
    (hts : ∀ aid e, ∃ s, toStr aid e = Except.ok s)
    (sub : Submission) (pid : Nat) (created : List String)
    (hp : (pdfs sub.1).isSome) :
    ∃ a bib c2, processPaper ctx toStr pdfs sub pid created =
      .ok (a, bib, zeroPad pid ctx.width, c2) := by
  obtain ⟨sid, ptitle, auths⟩ := sub
  have hp' : (pdfs sid).isSome := hp
  obtain ⟨path, hpath⟩ := Option.isSome_iff_exists.mp hp'
  simp only [processPaper, hpath]
  split
  · rename_i u heq
    obtain ⟨s, hs⟩ := hts _ _
    rw [hs] at heq
    exact Except.noConfusion heq
  · rename_i bibString heq
    exact ⟨_, _, _, rfl⟩

theorem emitPapers_noHalt (ctx : Ctx) (toStr : String → BibEntry → Except Unit String)
    (pdfs : String → Option String)
    (hts : ∀ aid e, ∃ s, toStr aid e = Except.ok s) :
    ∀ (papers : List Submission) (pid : Nat) (created : List String),
      (∀ p ∈ papers, (pdfs p.1).isSome) →
      (emitPapers ctx toStr pdfs papers pid created).halted = false ∧
      (emitPapers ctx toStr pdfs papers pid created).fids =
        (List.range papers.length).map (fun k => zeroPad (pid + k) ctx.width)
  | [], _, _, _ => ⟨rfl, rfl⟩
  | p :: rest, pid, created, h => by
    obtain ⟨a, bib, c2, hpp⟩ :=
      processPaper_ok ctx toStr pdfs hts p pid created (h p (List.mem_cons_self p rest))
    have IH := emitPapers_noHalt ctx toStr pdfs hts rest (pid + 1) c2
      (fun q hq => h q (List.mem_cons_of_mem _ hq))
    rw [emitPapers, hpp]
    refine ⟨IH.1, ?_⟩
    show zeroPad pid ctx.width :: (emitPapers ctx toStr pdfs rest (pid + 1) c2).fids = _
    rw [IH.2, List.length_cons, List.range_succ_eq_map, List.map_cons, List.map_map]
    exact congrArg (List.cons (zeroPad pid ctx.width))
      (List.map_congr_left fun k _ => by
        show zeroPad (pid + 1 + k) ctx.width = zeroPad (pid + (k + 1)) ctx.width
        congr 1
        omega)

theorem emitPapers_halts_on_missing (ctx : Ctx)
    (toStr : String → BibEntry → Except Unit String) (pdfs : String → Option String)
    (hts : ∀ aid e, ∃ s, toStr aid e = Except.ok s) :
    ∀ (pre : List Submission) (pid : Nat) (created : List String)
      (p : Submission) (post : List Submission),
      (∀ q ∈ pre, (pdfs q.1).isSome) → pdfs p.1 = none →
      emitPapers ctx toStr pdfs (pre ++ p :: post) pid created =
        { acts := (emitPapers ctx toStr pdfs pre pid created).acts ++
            [missingPaperPdfMsg (pid + pre.length)],
          bibs := (emitPapers ctx toStr pdfs pre pid created).bibs,
          fids := (emitPapers ctx toStr pdfs pre pid created).fids,
          halted := true }
  | [], pid, created, p, post, _, hp => by
    show emitPapers ctx toStr pdfs (p :: post) pid created = _
    simp only [emitPapers, processPaper_missing ctx toStr pdfs p pid created hp]
    simp
  | q :: pre, pid, created, p, post, hpre, hp => by
    obtain ⟨a, bib, c2, hpp⟩ :=
      processPaper_ok ctx toStr pdfs hts q pid created (hpre q (List.mem_cons_self q pre))
    have IH := emitPapers_halts_on_missing ctx toStr pdfs hts pre (pid + 1) c2 p post
      (fun r hr => hpre r (List.mem_cons_of_mem _ hr)) hp
    show emitPapers ctx toStr pdfs (q :: (pre ++ p :: post)) pid created = _
    simp only [emitPapers, hpp, IH]
    have harith : pid + 1 + pre.length = pid + (pre.length + 1) := by omega
    simp [List.append_assoc, harith]

/-- C2: Output identifiers are assigned purely positionally over the
final-paper list.  The list is seeded with the frontmatter entry (which
therefore comes first and, at counter 0, receives identifier 0); each
subsequent matched paper receives the next integer in accepted-decisions
order; every identifier is formatted by `zeroPad` at the context's width (the
value parsed from the bib_url, see `runWithMeta`).  For `N` matched papers
the loop assigns exactly the formatted identifiers `0, 1, ..., N`, with no
gaps, and does not halt. -/
theorem emit_sequential_ids (ctx : Ctx) (toStr : String → BibEntry → Except Unit String)
    (pdfs : String → Option String)
    (fm : Submission) (acc : List (String × String)) (subs : List Submission)
    (created : List String)
    (hts : ∀ aid e, ∃ s, toStr aid e = Except.ok s)
    (h : ∀ p ∈ finalPapers fm acc subs, (pdfs p.1).isSome) :
    (finalPapers fm acc subs).head? = some fm ∧
    (emitPapers ctx toStr pdfs (finalPapers fm acc subs) 0 created).halted = false ∧
    (emitPapers ctx toStr pdfs (finalPapers fm acc subs) 0 created).fids =
      (List.range ((joinAccepted acc subs).length + 1)).map (fun k => zeroPad k ctx.width) := by
  have H := emitPapers_noHalt ctx toStr pdfs hts (finalPapers fm acc subs) 0 created h
  refine ⟨rfl, H.1, ?_⟩
  rw [H.2]
  show (List.range ((joinAccepted acc subs).length + 1)).map
      (fun k => zeroPad (0 + k) ctx.width) = _
  exact List.map_congr_left fun k _ => by rw [Nat.zero_add]

/-- Witness for C2: the concrete final-paper list `[wFm, ("1","T1",...)]`
with both PDFs present yields the identifiers `00` and `01` (width 2). -/
theorem emit_sequential_ids_witness :
    (emitPapers wCtx okToStr wPdfs (finalPapers wFm wAcc wSubs) 0 []).halted = false ∧
    (emitPapers wCtx okToStr wPdfs (finalPapers wFm wAcc wSubs) 0 []).fids =
      (List.range 2).map (fun k => zeroPad k wCtx.width) :=
  have H := emit_sequential_ids wCtx okToStr wPdfs wFm wAcc wSubs []
    (fun aid _ => ⟨"BIB " ++ aid, rfl⟩) (by decide)
  ⟨H.2.1, H.2.2⟩

/-- C3: If any entry of the final-paper list (the frontmatter included: take
`pre = []`) has no entry in the PDF registry, then — provided the entries
before it are processable — the emit loop halts (`sys.exit(1)`, exit status
1, mapped to `Outcome.fatalExit` by `runWithMeta`), its trace is exactly the
actions of the earlier papers followed by the fatal stderr diagnostic, and
its record list is that of the earlier papers only: nothing is copied or
written for the PDF-less paper, and it is never silently skipped. -/
theorem emit_missing_pdf_fatal (ctx : Ctx) (toStr : String → BibEntry → Except Unit String)
    (pdfs : String → Option String)
    (pre : List Submission) (p : Submission) (post : List Submission)
    (pid : Nat) (created : List String)
    (hts : ∀ aid e, ∃ s, toStr aid e = Except.ok s)
    (hpre : ∀ q ∈ pre, (pdfs q.1).isSome)
    (hp : pdfs p.1 = none) :
    (emitPapers ctx toStr pdfs (pre ++ p :: post) pid created).halted = true ∧
    (emitPapers ctx toStr pdfs (pre ++ p :: post) pid created).acts =
      (emitPapers ctx toStr pdfs pre pid created).acts ++
        [missingPaperPdfMsg (pid + pre.length)] ∧
    (emitPapers ctx toStr pdfs (pre ++ p :: post) pid created).bibs =
      (emitPapers ctx toStr pdfs pre pid created).bibs ∧
    exitCode .fatalExit ≠ 0 := by
  have H := emitPapers_halts_on_missing ctx toStr pdfs hts pre pid created p post hpre hp
  rw [H]
  exact ⟨rfl, rfl, rfl, by decide⟩

/-- Witness for C3: with the registry lacking paper `"1"`, the loop on
`[wFm, ("1","T1",["A One","B Two"])]` halts. -/
theorem emit_missing_pdf_fatal_witness :
    (emitPapers wCtx okToStr wPdfsNoPaper
      ([wFm] ++ ("1", "T1", ["A One", "B Two"]) :: []) 0 []).halted = true :=
  (emit_missing_pdf_fatal wCtx okToStr wPdfsNoPaper [wFm] ("1", "T1", ["A One", "B Two"]) [] 0 []
    (fun aid _ => ⟨"BIB " ++ aid, rfl⟩) (by decide) (by decide)).1

/-- C4 counterexample: the regex of line 48 pins the host to
`www.aclweb.org` (with `.` wildcards), so the claim's example value
`https://host/anthology/W19-0%02d` does NOT parse into fields
(`W`, `19`, `0`, `2`); instead the run aborts fatally on it. -/
theorem bib_url_host_example_rejected :
    bibUrlMatch "https://host/anthology/W19-0%02d" = none ∧
    runWithMeta (c7inputs okToStr) wMetaHostUrl =
      { actions := [badBibUrlMsg "https://host/anthology/W19-0%02d"], outcome := .fatalExit } :=
  ⟨rfl, rfl⟩

/-- C4 (amended): the parse is total over all strings — each either matches
the structural pattern or the run aborts.  For the pinned-host value
`https://www.aclweb.org/anthology/W19-0%02d` the four derived fields are
(`W`, `19`, `0`, `2`); for any bib_url value that does not match (the
example `https://host/anthology/W19-0%02d` among them, see the
counterexample), the run aborts with a fatal stderr diagnostic and nonzero
exit status. -/
theorem bib_url_parse_amended :
    bibUrlMatch "https://www.aclweb.org/anthology/W19-0%02d" = some ("W", "19", "0", "2") ∧
    (∀ (inp : Inputs) (m : Meta) (u : String),
      m.tbl "bib_url" = some u → firstMissing m = none → bibUrlMatch u = none →
      runWithMeta inp m = { actions := [badBibUrlMsg u], outcome := .fatalExit } ∧
      exitCode (runWithMeta inp m).outcome ≠ 0) := by
  refine ⟨rfl, fun inp m u hu hmiss hparse => ?_⟩
  have hrun : runWithMeta inp m = { actions := [badBibUrlMsg u], outcome := .fatalExit } := by
    simp only [runWithMeta, hmiss, getMeta, hu, Option.getD_some, hparse]
  exact ⟨hrun, by rw [hrun]; exact Nat.one_ne_zero⟩

/-- Witness for C4: the amended theorem applied at the concrete metadata
table whose bib_url value is `xyz`. -/
theorem bib_url_parse_amended_witness :
    runWithMeta (c7inputs okToStr) wMetaBadUrl =
      { actions := [badBibUrlMsg "xyz"], outcome := .fatalExit } :=
  (bib_url_parse_amended.2 (c7inputs okToStr) wMetaBadUrl "xyz"
    (by decide) (by decide) (by decide)).1

/-- C5: The record loader parses each line of the tab-separated submissions
file into `(id, title, authors)` — fields 0 and 2 with the author field
(field 1) normalized by rewriting its `" and"` conjunction to a comma and
then split on `", "` (`splitAuthors`, line 80).  In particular
`"A and B"` yields `["A","B"]` and `"A, B and C"` yields `["A","B","C"]`. -/
theorem submissions_author_split :
    (∀ lines : List String,
      (∀ l ∈ lines, 3 ≤ (pySplitOn (pyRstrip l) "\t").length) →
      loadSubmissions lines = .ok (lines.map (fun l =>
        ((pySplitOn (pyRstrip l) "\t").getD 0 "",
         (pySplitOn (pyRstrip l) "\t").getD 2 "",
         splitAuthors ((pySplitOn (pyRstrip l) "\t").getD 1 ""))))) ∧
    splitAuthors "A and B" = ["A", "B"] ∧
    splitAuthors "A, B and C" = ["A", "B", "C"] := by
  refine ⟨?_, by decide, by decide⟩
  intro lines
  induction lines with
  | nil => intro _; rfl
  | cons l ls IH =>
    intro h
    have hl := h l (List.mem_cons_self l ls)
    have IH2 := IH (fun x hx => h x (List.mem_cons_of_mem _ hx))
    match hsp : pySplitOn (pyRstrip l) "\t" with
    | [] => rw [hsp] at hl; simp at hl
    | [_] => rw [hsp] at hl; simp at hl
    | [_, _] => rw [hsp] at hl; simp at hl
    | e0 :: e1 :: e2 :: rest =>
      simp only [loadSubmissions, hsp, List.map_cons, IH2, Except.map, List.getD]
      rfl

/-- Witness for C5: the loader applied to the single line `1⟨tab⟩A and B⟨tab⟩T`. -/
theorem submissions_author_split_witness :
    loadSubmissions ["1\tA and B\tT"] = .ok [("1", "T", ["A", "B"])] := by
  rw [submissions_author_split.1 ["1\tA and B\tT"] (by decide)]
  rfl

/-- C6 counterexample: the claim says all five fatal conditions write their
diagnostic to the error stream, but the missing-required-metadata-key
diagnostic of line 45 is printed with no `file=sys.stderr`, i.e. to standard
output. -/
theorem fatal_channel_stdout_example :
    runScript c6MissingKeyInputs =
      { actions := [missingKeyMsg "abbrev"], outcome := .fatalExit } ∧
    msgChannel (missingKeyMsg "abbrev") = some Channel.stdout ∧
    Channel.stdout ≠ Channel.stderr :=
  ⟨rfl, rfl, by decide⟩

/-- C6 (amended): each of the five fatal conditions — missing required
metadata key, malformed bib_url, missing full-volume or frontmatter PDF,
missing PDF for a matched paper, bibliography-record encoding failure —
exits the process with status 1 after a fatal diagnostic; the malformed
bib_url, missing-paper-PDF and encoding-failure diagnostics go to the error
stream, while the missing-metadata-key and missing full/frontmatter-PDF
diagnostics go to standard output. -/
theorem fatal_conditions_amended :
    runScript c6MissingKeyInputs = { actions := [missingKeyMsg "abbrev"], outcome := .fatalExit } ∧
    runScript c6BadUrlInputs = { actions := [badBibUrlMsg "xyz"], outcome := .fatalExit } ∧
    runScript c6NoFullPdfInputs =
      { actions := [foundAcceptedMsg 1, foundSubmittedMsg 1, missingFullPdfMsg "pdf/X_2019.pdf"],
        outcome := .fatalExit } ∧
    runScript c6NoFrontPdfInputs =
      { actions := [foundAcceptedMsg 1, foundSubmittedMsg 1,
          missingFrontmatterPdfMsg "pdf/X_2019_frontmatter.pdf"],
        outcome := .fatalExit } ∧
    (runScript c6NoPaperPdfInputs).outcome = .fatalExit ∧
    (runScript c6NoPaperPdfInputs).actions.getLast? = some (missingPaperPdfMsg 1) ∧
    (runScript c6EncodeFailInputs).outcome = .fatalExit ∧
    (runScript c6EncodeFailInputs).actions.getLast? = some (bibEncodeMsg "0") ∧
    msgChannel (missingKeyMsg "abbrev") = some Channel.stdout ∧
    msgChannel (badBibUrlMsg "xyz") = some Channel.stderr ∧
    msgChannel (missingFullPdfMsg "pdf/X_2019.pdf") = some Channel.stdout ∧
    msgChannel (missingFrontmatterPdfMsg "pdf/X_2019_frontmatter.pdf") = some Channel.stdout ∧
    msgChannel (missingPaperPdfMsg 1) = some Channel.stderr ∧
    msgChannel (bibEncodeMsg "0") = some Channel.stderr ∧
    exitCode .fatalExit = 1 :=
  ⟨rfl, rfl, rfl, rfl, rfl, rfl, rfl, rfl, rfl, rfl, rfl, rfl, rfl, rfl, rfl⟩

theorem processPaper_some (ctx : Ctx) (toStr : String → BibEntry → Except Unit String)
    (pdfs : String → Option String)
    (sid ptitle : String) (auths : List String) (pid : Nat) (created : List String)
    (path : String) (hpath : pdfs sid = some path) :
    processPaper ctx toStr pdfs (sid, ptitle, auths) pid created =
      match toStr (aidOf ctx pid) (entryOf ctx sid ptitle auths) with
      | .error _ => .error (ppActs ctx pid created path ++ [bibEncodeMsg sid])
      | .ok bibString =>
        .ok (ppActs ctx pid created path ++
              [.writeFile (bibPathOf ctx pid) (bibString ++ "\n"), createdMsg (bibPathOf ctx pid)],
             bibString, zeroPad pid ctx.width, ppCreated ctx pid created) := by
  simp only [processPaper, hpath]

/-- C7: End-to-end, with exactly one accepted paper whose (id, title)
matches a submission, its per-paper PDF present, and the required frontmatter
and full-volume PDFs present: for any serializer returning record `r0` for
the frontmatter entry and `r1` for the paper entry, the run completes and
produces exactly 2 renamed PDF outputs under `proceedings/cdrom/pdf/`
(frontmatter first, then the paper), exactly 2 per-paper bibliography files
under `proceedings/cdrom/bib/`, and exactly 1 volume-level bibliography file
whose content is the two records joined in frontmatter-then-paper order. -/
theorem end_to_end_single_paper (toStr : String → BibEntry → Except Unit String)
    (r0 r1 : String)
    (h0 : toStr "W19-000" fmEntryC7 = Except.ok r0)
    (h1 : toStr "W19-001" paperEntryC7 = Except.ok r1) :
    (runScript (c7inputs toStr)).outcome = .completed ∧
    (runScript (c7inputs toStr)).actions.filter isCdromPdfCopy =
      [.copyFile "pdf/X_2019_frontmatter.pdf" "proceedings/cdrom/pdf/W19-000.pdf",
       .copyFile "pdf/X_2019_paper_1.pdf" "proceedings/cdrom/pdf/W19-001.pdf"] ∧
    ((runScript (c7inputs toStr)).actions.filter isCdromPdfCopy).length = 2 ∧
    ((runScript (c7inputs toStr)).actions.filter isCdromBibWrite).length = 2 ∧
    (runScript (c7inputs toStr)).actions.filter (isWriteTo "proceedings/cdrom/X-2019.bib") =
      [.writeFile "proceedings/cdrom/X-2019.bib" (r0 ++ "\n" ++ r1 ++ "\n")] := by
  have e0 : processPaper c7ctx toStr c7pdfs ("0", "BT", ["C One"]) 0 c7created
      = .ok (fmStepActs r0, r0, "00", c7created) := by
    rw [processPaper_some c7ctx toStr c7pdfs "0" "BT" ["C One"] 0 c7created
      "pdf/X_2019_frontmatter.pdf" (by decide)]
    rw [show toStr (aidOf c7ctx 0) (entryOf c7ctx "0" "BT" ["C One"]) = Except.ok r0 by
      rw [show aidOf c7ctx 0 = "W19-000" from by decide,
        show entryOf c7ctx "0" "BT" ["C One"] = fmEntryC7 from by decide]
      exact h0]
    simp only [show ppActs c7ctx 0 c7created "pdf/X_2019_frontmatter.pdf" =
        [Action.copyFile "pdf/X_2019_frontmatter.pdf" "proceedings/cdrom/pdf/W19-000.pdf",
         copyingMsg "pdf/X_2019_frontmatter.pdf" "proceedings/cdrom/pdf/W19-000.pdf"]
        from by decide,
      show bibPathOf c7ctx 0 = "proceedings/cdrom/bib/W19-000.bib" from by decide,
      show zeroPad 0 c7ctx.width = "00" from by decide,
      show ppCreated c7ctx 0 c7created = c7created from by decide]
    rfl
  have e1 : processPaper c7ctx toStr c7pdfs ("1", "T1", ["A One", "B Two"]) 1 c7created
      = .ok (paperStepActs r1, r1, "01", c7created) := by
    rw [processPaper_some c7ctx toStr c7pdfs "1" "T1" ["A One", "B Two"] 1 c7created
      "pdf/X_2019_paper_1.pdf" (by decide)]
    rw [show toStr (aidOf c7ctx 1) (entryOf c7ctx "1" "T1" ["A One", "B Two"]) = Except.ok r1 by
      rw [show aidOf c7ctx 1 = "W19-001" from by decide,
        show entryOf c7ctx "1" "T1" ["A One", "B Two"] = paperEntryC7 from by decide]
      exact h1]
    simp only [show ppActs c7ctx 1 c7created "pdf/X_2019_paper_1.pdf" =
        [Action.copyFile "pdf/X_2019_paper_1.pdf" "proceedings/cdrom/pdf/W19-001.pdf",
         copyingMsg "pdf/X_2019_paper_1.pdf" "proceedings/cdrom/pdf/W19-001.pdf"]
        from by decide,
      show bibPathOf c7ctx 1 = "proceedings/cdrom/bib/W19-001.bib" from by decide,
      show zeroPad 1 c7ctx.width = "01" from by decide,
      show ppCreated c7ctx 1 c7created = c7created from by decide]
    rfl
  have he : emitPapers c7ctx toStr c7pdfs
        [("0", "BT", ["C One"]), ("1", "T1", ["A One", "B Two"])] 0 c7created =
      { acts := fmStepActs r0 ++ (paperStepActs r1 ++ []), bibs := [r0, r1],
        fids := ["00", "01"], halted := false } := by
    simp only [emitPapers, e0, e1]
  have hrun0 : runScript (c7inputs toStr) =
      (let r := emitPapers c7ctx toStr c7pdfs
        [("0", "BT", ["C One"]), ("1", "T1", ["A One", "B Two"])] 0 c7created
       if r.halted then { actions := c7prefix ++ r.acts, outcome := .fatalExit }
       else { actions := c7prefix ++ r.acts ++ c7suffixActs r.bibs, outcome := .completed }) := rfl
  have hrun : runScript (c7inputs toStr) =
      { actions := c7prefix ++ (fmStepActs r0 ++ (paperStepActs r1 ++ [])) ++
          c7suffixActs [r0, r1],
        outcome := .completed } := by
    rw [hrun0, he]
    rfl
  rw [hrun]
  exact ⟨rfl, rfl, rfl, rfl, rfl⟩

/-- Witness for C7: the end-to-end theorem applied at the always-succeeding
serializer fixture. -/
theorem end_to_end_single_paper_witness :
    (runScript (c7inputs okToStr)).outcome = .completed ∧
    (runScript (c7inputs okToStr)).actions.filter (isWriteTo "proceedings/cdrom/X-2019.bib") =
      [.writeFile "proceedings/cdrom/X-2019.bib" ("BIB W19-000" ++ "\n" ++ "BIB W19-001" ++ "\n")] :=
  have H := end_to_end_single_paper okToStr "BIB W19-000" "BIB W19-001" rfl rfl
  ⟨H.1, H.2.2.2.2⟩

theorem u2tChar_ascii (c : Char) (h : c.toNat < 128) : u2tChar c = [c] := by
  simp [u2tChar, h]

theorem flatten_map_u2t :
    ∀ l : List Char, (∀ c ∈ l, c.toNat < 128) → (l.map u2tChar).flatten = l
  | [], _ => rfl
  | c :: cs, h => by
    rw [List.map_cons, List.flatten_cons, u2tChar_ascii c (h c (List.mem_cons_self c cs)),
      flatten_map_u2t cs (fun x hx => h x (List.mem_cons_of_mem _ hx))]
    exact List.singleton_append

theorem unicode_to_tex_ascii (t : String) (h : ∀ c ∈ t.data, c.toNat < 128) :
    unicode_to_tex t = t := by
  rw [unicode_to_tex, flatten_map_u2t t.data h]

theorem splitWsAux_chars :
    ∀ (cs cur : List Char) (t : String), t ∈ splitWsAux cur cs →
      ∀ c ∈ t.data, c ∈ cur ∨ c ∈ cs
  | [], cur, t, ht, c, hc => by
    rw [splitWsAux] at ht
    by_cases hcur : cur.isEmpty
    · rw [if_pos hcur] at ht
      exact absurd ht (List.not_mem_nil t)
    · rw [if_neg hcur] at ht
      rcases List.mem_singleton.mp ht with rfl
      exact Or.inl (List.mem_reverse.mp hc)
  | d :: ds, cur, t, ht, c, hc => by
    rw [splitWsAux] at ht
    by_cases hd : isWs d
    · rw [if_pos hd] at ht
      by_cases hcur : cur.isEmpty
      · rw [if_pos hcur] at ht
        rcases splitWsAux_chars ds [] t ht c hc with h | h
        · exact absurd h (List.not_mem_nil c)
        · exact Or.inr (List.mem_cons_of_mem d h)
      · rw [if_neg hcur] at ht
        rcases List.mem_cons.mp ht with rfl | ht2
        · exact Or.inl (List.mem_reverse.mp hc)
        · rcases splitWsAux_chars ds [] t ht2 c hc with h | h
          · exact absurd h (List.not_mem_nil c)
          · exact Or.inr (List.mem_cons_of_mem d h)
    · rw [if_neg hd] at ht
      rcases splitWsAux_chars ds (d :: cur) t ht c hc with h | h
      · rcases List.mem_cons.mp h with rfl | h2
        · exact Or.inr (List.mem_cons_self c ds)
        · exact Or.inl h2
      · exact Or.inr (List.mem_cons_of_mem d h)

/-- C8: `texify` is the identity on pure-ASCII input whose tokens are
single-space separated (that condition is captured by
`intercalate " " (split s) = s`: no leading/trailing whitespace, no repeated
or non-space whitespace), and hence idempotent on such input. -/
theorem texify_ascii_identity (s : String)
    (hws : String.intercalate " " (pySplitWs s) = s)
    (hA : ∀ c ∈ s.data, c.toNat < 128) :
    texify s = s ∧ texify (texify s) = texify s := by
  have htok : ∀ t ∈ pySplitWs s, unicode_to_tex t = t := by
    intro t ht
    refine unicode_to_tex_ascii t (fun c hc => hA c ?_)
    rcases splitWsAux_chars s.data [] t ht c hc with h | h
    · exact absurd h (List.not_mem_nil c)
    · exact h
  have h1 : texify s = s := by
    rw [texify, (List.map_congr_left htok).trans (List.map_id _), hws]
  exact ⟨h1, by rw [h1]; exact h1⟩

/-- Witness for C8: the identity and idempotence at the concrete author
string `"A B"`. -/
theorem texify_ascii_identity_witness :
    texify "A B" = "A B" ∧ texify (texify "A B") = texify "A B" :=
  texify_ascii_identity "A B" (by decide) (by decide)

theorem foldl_dictInsert_skip :
    ∀ (gs : List String) (d : String → Option String) (k : String),
      (∀ g ∈ gs, extractId g ≠ k) →
      (gs.foldl (fun d g => dictInsert d (extractId g) g) d) k = d k
  | [], _, _, _ => rfl
  | g :: gs, d, k, h => by
    rw [List.foldl_cons,
      foldl_dictInsert_skip gs _ k (fun x hx => h x (List.mem_cons_of_mem _ hx))]
    have hne : k ≠ extractId g := fun hk => h g (List.mem_cons_self g gs) hk.symm
    simp [dictInsert, hne]

/-- C9: The PDF registry is seeded with the frontmatter PDF under key `"0"`
before the globbed per-paper PDFs are inserted, so a globbed per-paper file
whose extracted filename id is `"0"` (e.g. `pdf/<abbrev>_<year>_paper_0.pdf`)
overwrites the frontmatter entry (`g` being the last such file in glob
order), and the emit loop's first action for the frontmatter entry copies
that file — not the frontmatter PDF — to the identifier-0 destination. -/
theorem paper_zero_overwrites_frontmatter (front : String) (pre post : List String) (g : String)
    (ctx : Ctx) (toStr : String → BibEntry → Except Unit String)
    (t : String) (auths : List String) (rest : List Submission) (created : List String)
    (hg : extractId g = "0")
    (hpost : ∀ g' ∈ post, extractId g' ≠ "0") :
    buildPdfs front (pre ++ g :: post) "0" = some g ∧
    (emitPapers ctx toStr (buildPdfs front (pre ++ g :: post))
        (("0", t, auths) :: rest) 0 created).acts.head? =
      some (Action.copyFile g (destOf ctx 0)) := by
  have hlook : buildPdfs front (pre ++ g :: post) "0" = some g := by
    rw [buildPdfs, List.foldl_append, List.foldl_cons,
      foldl_dictInsert_skip post _ "0" hpost]
    simp [dictInsert, hg]
  refine ⟨hlook, ?_⟩
  have hpp := processPaper_some ctx toStr (buildPdfs front (pre ++ g :: post))
    "0" t auths 0 created g hlook
  cases htoStr : toStr (aidOf ctx 0) (entryOf ctx "0" t auths) with
  | error u =>
    rw [htoStr] at hpp
    simp only [emitPapers, hpp]
    simp [ppActs]
  | ok b =>
    rw [htoStr] at hpp
    simp only [emitPapers, hpp]
    simp [ppActs]

/-- Witness for C9: a concrete glob list containing
`pdf/X_2019_paper_0.pdf`. -/
theorem paper_zero_overwrites_frontmatter_witness :
    buildPdfs "pdf/X_2019_frontmatter.pdf" ([] ++ "pdf/X_2019_paper_0.pdf" :: []) "0" =
      some "pdf/X_2019_paper_0.pdf" :=
  (paper_zero_overwrites_frontmatter "pdf/X_2019_frontmatter.pdf" [] []
    "pdf/X_2019_paper_0.pdf" wCtx okToStr "BT" ["C One"] [] []
    (by decide) (by decide)).1

theorem pySplitMax1_len_le (s : String) : (pySplitMax1 s).length ≤ 2 := by
  simp only [pySplitMax1]
  split
  · simp
  · split <;> simp

theorem loadMetaLines_err :
    ∀ (ls : List String) (m : Meta),
      (∃ l ∈ ls, (pySplitMax1 (pyRstrip l)).length < 2) →
      loadMetaLines ls m = .error ()
  | [], _, h => absurd h (by simp)
  | l :: ls, m, h => by
    rw [loadMetaLines]
    by_cases hl : (pySplitMax1 (pyRstrip l)).length < 2
    · match hsp : pySplitMax1 (pyRstrip l) with
      | [] => rfl
      | [_] => rfl
      | [k, v] => rw [hsp] at hl; simp at hl
      | a :: b :: x :: xs => rfl
    · have hrest : ∃ x ∈ ls, (pySplitMax1 (pyRstrip x)).length < 2 := by
        rcases h with ⟨x, hx, hxl⟩
        rcases List.mem_cons.mp hx with rfl | hx2
        · exact absurd hxl hl
        · exact ⟨x, hx2, hxl⟩
      match pySplitMax1 (pyRstrip l) with
      | [] => rfl
      | [_] => rfl
      | [k, v] =>
        dsimp only
        split <;> exact loadMetaLines_err ls _ hrest
      | a :: b :: x :: xs => rfl

theorem loadMetaLines_ok :
    ∀ (ls : List String) (m : Meta),
      (∀ l ∈ ls, 2 ≤ (pySplitMax1 (pyRstrip l)).length) →
      ∃ m', loadMetaLines ls m = .ok m'
  | [], m, _ => ⟨m, rfl⟩
  | l :: ls, m, h => by
    have hlen2 : (pySplitMax1 (pyRstrip l)).length = 2 :=
      Nat.le_antisymm (pySplitMax1_len_le _) (h l (List.mem_cons_self l ls))
    have hrest : ∀ x ∈ ls, 2 ≤ (pySplitMax1 (pyRstrip x)).length :=
      fun x hx => h x (List.mem_cons_of_mem _ hx)
    rw [loadMetaLines]
    match hsp : pySplitMax1 (pyRstrip l) with
    | [k, v] =>
      dsimp only
      split
      · exact loadMetaLines_ok ls _ hrest
      · exact loadMetaLines_ok ls _ hrest
    | [] => rw [hsp] at hlen2; exact absurd hlen2 (by simp)
    | [_] => rw [hsp] at hlen2; exact absurd hlen2 (by simp)
    | a :: b :: x :: xs =>
      rw [hsp] at hlen2
      simp only [List.length_cons] at hlen2
      omega

/-- C10: The metadata loader is total exactly under the precondition that
every `meta` line yields at least two whitespace-separated tokens.  On any
file with a line of fewer than two tokens (blank line, or key without value)
the run aborts via the unhandled unpacking `ValueError` — before the
required-key validation runs, so with an empty action trace (in particular no
`Fatal:` diagnostic), an outcome distinct from the documented fatal-exit
path, and still a nonzero exit status. -/
theorem meta_loader_unpack_abort (inp : Inputs) :
    ((∃ l ∈ inp.metaLines, (pySplitMax1 (pyRstrip l)).length < 2) →
      loadMetaLines inp.metaLines initMeta = .error () ∧
      runScript inp = { actions := [], outcome := .uncaught } ∧
      Outcome.uncaught ≠ Outcome.fatalExit ∧ exitCode .uncaught ≠ 0) ∧
    ((∀ l ∈ inp.metaLines, 2 ≤ (pySplitMax1 (pyRstrip l)).length) →
      ∃ m, loadMetaLines inp.metaLines initMeta = .ok m) := by
  constructor
  · intro hbad
    have herr := loadMetaLines_err inp.metaLines initMeta hbad
    refine ⟨herr, ?_, by decide, by decide⟩
    simp only [runScript, herr]
  · intro hgood
    exact loadMetaLines_ok inp.metaLines initMeta hgood

/-- Witness for C10: the `meta` file consisting of the single valueless line
`justakey` aborts with an empty trace and the uncaught-exception outcome. -/
theorem meta_loader_unpack_abort_witness :
    runScript c10Inputs = { actions := [], outcome := .uncaught } :=
  ((meta_loader_unpack_abort c10Inputs).1 (by decide)).2.1

end Easy2Acl
